import Mathlib

/-!
Verification development for the CalChatBot repository (a Cal.com scheduling
chatbot).  The definitions below are shallow embeddings of the Python source:

* `extract_iso_datetime` embeds the regex-based ISO-8601 extraction of
  `test_iso_extract.py` (the regex there is
  `(\d{4}-\d{2}-\d{2})T(\d{2}:\d{2}):00\.000Z`, searched left to right;
  the Python function returns a `{date, time}` dict on a match and the empty
  dict otherwise, which we model as `Option (String × String)`).
* The conversation store, `/chat` handler, conversation endpoints and the
  API-key check embed `src/app.py`.
* The client service layer embeds `api_service.py`.
* The Booking Orchestrator (`CalendarAgent.book_meeting` and its failure
  classification) lives in `src/bot/chatbot.py`, which is not part of the
  sources here; it is modelled from the specification, as marked on the
  relevant definitions.
-/

namespace CalChatBot

/-! ### ISO datetime extraction (`test_iso_extract.py`) -/

/-- The shape `\d{4}-\d{2}-\d{2}` of the date group of the regex in
`extract_iso_datetime` (digits are `0`-`9`). -/
def dateShape : List Char → Bool
  | [a, b, c, d, h1, e, f, h2, g, h] =>
    a.isDigit && b.isDigit && c.isDigit && d.isDigit && h1 == '-' &&
    e.isDigit && f.isDigit && h2 == '-' && g.isDigit && h.isDigit
  | _ => false

/-- A string matching `YYYY-MM-DD` (four digits, dash, two digits, dash,
two digits). -/
def isDate (s : String) : Bool := dateShape s.data

/-- The shape `\d{2}:\d{2}` of the time group of the regex in
`extract_iso_datetime`. -/
def timeShape : List Char → Bool
  | [i, j, c1, k, l] => i.isDigit && j.isDigit && c1 == ':' && k.isDigit && l.isDigit
  | _ => false

/-- A string matching `HH:MM` (two digits, colon, two digits). -/
def isTime (s : String) : Bool := timeShape s.data

/-- The fixed character tail `:00.000Z` of the regex pattern. -/
def isoTail : List Char := [':', '0', '0', '.', '0', '0', '0', 'Z']

/-- Try to match the regex pattern
`(\d{4}-\d{2}-\d{2})T(\d{2}:\d{2}):00\.000Z` at the head of the character
list, returning the two capture groups on success. -/
def matchISO : List Char → Option (String × String)
  | a :: b :: c :: d :: h1 :: e :: f :: h2 :: g :: h ::
    t :: i :: j :: c1 :: k :: l :: c2 :: z1 :: z2 :: p :: z3 :: z4 :: z5 :: zz :: _ =>
    if a.isDigit && b.isDigit && c.isDigit && d.isDigit && h1 == '-' &&
       e.isDigit && f.isDigit && h2 == '-' && g.isDigit && h.isDigit &&
       t == 'T' && i.isDigit && j.isDigit && c1 == ':' && k.isDigit && l.isDigit &&
       c2 == ':' && z1 == '0' && z2 == '0' && p == '.' &&
       z3 == '0' && z4 == '0' && z5 == '0' && zz == 'Z' then
      some (⟨[a, b, c, d, h1, e, f, h2, g, h]⟩, ⟨[i, j, c1, k, l]⟩)
    else
      none
  | _ => none

/-- Left-to-right scan for the first position where the pattern matches,
mirroring Python's `re.search`. -/
def scanISO : List Char → Option (String × String)
  | [] => none
  | c :: cs =>
    match matchISO (c :: cs) with
    | some r => some r
    | none => scanISO cs

/-- `extract_iso_datetime` from `test_iso_extract.py`: searches the message
for the first occurrence of `(\d{4}-\d{2}-\d{2})T(\d{2}:\d{2}):00\.000Z` and
returns the date and time capture groups; the Python empty-dict result is
modelled as `none`. -/
def extract_iso_datetime (msg : String) : Option (String × String) :=
  scanISO msg.data

/-- The ISO rendering `f"{date}T{time}:00.000Z"` used by `book_event` and
`reschedule_event` in `src/app.py` to build the start instant sent to the
remote calendar. -/
def renderISO (date time : String) : String :=
  date ++ "T" ++ time ++ ":00.000Z"

example : extract_iso_datetime "book a 30 min meeting for 2025-05-14T20:30:00.000Z" =
    some ("2025-05-14", "20:30") := by decide
example : extract_iso_datetime "No date here" = none := by decide
example : extract_iso_datetime "Partial date: 2025-05-14" = none := by decide

/-! ### Conversation store and endpoints (`src/app.py`) -/

/-- The `Message` pydantic model of `src/app.py`: id, content, role and
creation timestamp. -/
structure Message where
  id : String
  content : String
  role : String
  createdAt : String
deriving DecidableEq

/-- The `Conversation` pydantic model of `src/app.py`. -/
structure Conversation where
  id : String
  userEmail : String
  messages : List Message
  createdAt : String
  updatedAt : String
deriving DecidableEq

/-- The in-memory `conversations` dict of `src/app.py`, as an association
list from conversation id to conversation. -/
def Store := List (String × Conversation)

/-- Dict lookup `conversations[cid]` / membership `cid in conversations`. -/
def getStore : Store → String → Option Conversation
  | [], _ => none
  | (k, v) :: rest, cid => if k = cid then some v else getStore rest cid

/-- Dict assignment `conversations[cid] = conv`: replaces an existing
binding, otherwise appends a new one. -/
def setStore : Store → String → Conversation → Store
  | [], cid, conv => [(cid, conv)]
  | (k, v) :: rest, cid, conv =>
    if k = cid then (cid, conv) :: rest else (k, v) :: setStore rest cid conv

/-- Dict deletion `del conversations[cid]`. -/
def delStore : Store → String → Store
  | [], _ => []
  | (k, v) :: rest, cid => if k = cid then rest else (k, v) :: delStore rest cid

/-- What `agent.process_message` returns to the `/chat` handler: the
response text, the action taken and its details (the details dict is kept
opaque). -/
structure AgentResult where
  response : String
  actionTaken : Option String
  details : Option String

/-- The `ChatResponse` model returned by `/chat`. -/
structure ChatResponse where
  response : String
  conversationId : String
  actionTaken : Option String
  details : Option String
deriving DecidableEq

/-- Python truthiness test `not conversation_id` on an `Optional[str]`:
true for `None` and for the empty string. -/
def isFalsyId : Option String → Bool
  | none => true
  | some s => s == ""

/-- The success path of the `/chat` handler in `src/app.py` (lines 262-305).
`reqId` is the request's `conversation_id`; `freshConvId`, `msgId1`,
`msgId2` and `now` stand for the `uuid4` / `datetime.now` values generated
during the request.  If `conversation_id` is falsy or not a stored key, a
new conversation with the fresh id is created (and stored); otherwise the
stored conversation is fetched and its `updated_at` refreshed.  The user
message and then the assistant message are appended to the conversation's
message list, the conversation is written back to the store, and the
response carries the (new or existing) conversation id. -/
def chatHandler (store : Store) (reqId : Option String) (userEmail msgText : String)
    (agentResult : AgentResult) (freshConvId msgId1 msgId2 now : String) :
    ChatResponse × Store :=
  let (cid, conv0) :=
    if isFalsyId reqId then
      (freshConvId, Conversation.mk freshConvId userEmail [] now now)
    else
      match reqId with
      | none => (freshConvId, Conversation.mk freshConvId userEmail [] now now)
      | some c =>
        match getStore store c with
        | none => (freshConvId, Conversation.mk freshConvId userEmail [] now now)
        | some conv => (c, { conv with updatedAt := now })
  let userMsg : Message := ⟨msgId1, msgText, "user", now⟩
  let asstMsg : Message := ⟨msgId2, agentResult.response, "assistant", now⟩
  let convF := { conv0 with messages := conv0.messages ++ [userMsg, asstMsg] }
  (⟨agentResult.response, cid, agentResult.actionTaken, agentResult.details⟩,
   setStore store cid convF)

/-- An HTTP error raised by an endpoint: status code and detail string. -/
structure HTTPError where
  statusCode : Nat
  detail : String
deriving DecidableEq

/-- The summary dict returned by `GET /api/conversations/{id}`. -/
structure ConversationSummary where
  id : String
  userEmail : String
  createdAt : String
  updatedAt : String
  messageCount : Nat
deriving DecidableEq

/-- `get_conversation` endpoint of `src/app.py`: 404 when the id is not a
stored key, otherwise a summary of the conversation.  The store is returned
alongside the result (this handler never modifies it). -/
def get_conversation (store : Store) (cid : String) :
    Except HTTPError ConversationSummary × Store :=
  match getStore store cid with
  | none => (.error ⟨404, "Conversation not found"⟩, store)
  | some conv =>
    (.ok ⟨conv.id, conv.userEmail, conv.createdAt, conv.updatedAt, conv.messages.length⟩,
     store)

/-- `delete_conversation` endpoint of `src/app.py`: 404 when the id is not a
stored key (store untouched), otherwise deletes the binding and returns a
confirmation message. -/
def delete_conversation (store : Store) (cid : String) :
    Except HTTPError String × Store :=
  match getStore store cid with
  | none => (.error ⟨404, "Conversation not found"⟩, store)
  | some _ => (.ok ("Conversation " ++ cid ++ " deleted"), delStore store cid)

/-- `get_conversation_messages` endpoint of `src/app.py`: 404 when the id is
not a stored key, otherwise the conversation's message list.  Never
modifies the store. -/
def get_conversation_messages (store : Store) (cid : String) :
    Except HTTPError (List Message) × Store :=
  match getStore store cid with
  | none => (.error ⟨404, "Conversation not found"⟩, store)
  | some conv => (.ok conv.messages, store)

/-- `verify_api_key` of `src/app.py`: the header value is `None` when the
`X-API-Key` header is missing; the configured key (from `API_KEY`, default
`"test-api-key"`) is always a string.  Python's `api_key != valid_api_key`
is true whenever the header is missing or differs, and then a 401 is
raised; otherwise the key is returned unchanged. -/
def verify_api_key (apiKey : Option String) (validApiKey : String) :
    Except HTTPError String :=
  match apiKey with
  | none => .error ⟨401, "Invalid API key"⟩
  | some k => if k = validApiKey then .ok k else .error ⟨401, "Invalid API key"⟩

/-! ### Calendar write formatting (`src/app.py` `book_event` / `reschedule_event`) -/

/-- The `BookEventRequest` pydantic model of `src/app.py`. -/
structure BookEventRequest where
  eventTypeId : String
  date : String
  time : String
  name : String
  email : String
  reason : Option String

/-- The argument record of the remote call
`cal_api.book_event(event_type_id, start_time, name, email, reason)`. -/
structure RemoteBookingCall where
  eventTypeId : String
  startTime : String
  name : String
  email : String
  reason : Option String

/-- Lines 483-494 of `src/app.py`: `book_event` renders
`start_time = f"{event.date}T{event.time}:00.000Z"` and passes it, with the
attendee details, to the remote calendar write call. -/
def book_event_call (e : BookEventRequest) : RemoteBookingCall :=
  { eventTypeId := e.eventTypeId
    startTime := renderISO e.date e.time
    name := e.name
    email := e.email
    reason := e.reason }

/-- Lines 588-592 of `src/app.py`: `reschedule_event` renders
`new_start_time = f"{reschedule_data.new_date}T{reschedule_data.new_time}:00.000Z"`
and passes it to `cal_api.reschedule_booking`. -/
def reschedule_event_start (newDate newTime : String) : String :=
  renderISO newDate newTime

/-! ### Client service layer (`api_service.py`) -/

/-- How an outbound `requests` call can end: a JSON body on success, a
`requests.exceptions.RequestException` (which includes timeouts and the
`raise_for_status` HTTP errors), or any other exception. -/
inductive RequestOutcome where
  | success (body : String)
  | requestException (message : String)
  | otherException (message : String)

/-- What the service-layer functions hand back to their caller: either the
decoded JSON body, or a `{"error": message}` dict. -/
inductive ApiResult where
  | json (body : String)
  | errorDict (message : String)
deriving DecidableEq

/-- The keyword arguments of an outbound `requests` call, as issued by
`api_service.py` (`timeout=30` on every call). -/
structure OutboundCall where
  url : String
  timeoutSeconds : Nat

/-- The request issued by `send_message`: `POST {API_BASE_URL}/chat` with
`timeout=30`. -/
def send_message_call (baseUrl : String) : OutboundCall :=
  ⟨baseUrl ++ "/chat", 30⟩

/-- The request issued by the client `get_conversation_messages`:
`GET {API_BASE_URL}/api/conversations/{conversation_id}/messages` with
`timeout=30`. -/
def get_messages_call (baseUrl convId : String) : OutboundCall :=
  ⟨baseUrl ++ "/api/conversations/" ++ convId ++ "/messages", 30⟩

/-- `send_message` of `api_service.py` after the request returns: the JSON
body on success; on `RequestException` or any other exception, the
`{"error": str(e)}` dict.  The function is total: no exception escapes. -/
def send_message (outcome : RequestOutcome) : ApiResult :=
  match outcome with
  | .success body => .json body
  | .requestException m => .errorDict m
  | .otherException m => .errorDict m

/-- Client-side `get_conversation_messages` of `api_service.py`: the JSON
body on success; on any exception, the `{"error": str(e)}` dict. -/
def client_get_conversation_messages (outcome : RequestOutcome) : ApiResult :=
  match outcome with
  | .success body => .json body
  | .requestException m => .errorDict m
  | .otherException m => .errorDict m

/-! ### Booking Orchestrator (modelled from the spec) -/

/-- `startsWithL l pat`: `pat` is an initial segment of `l`. -/
def startsWithL : List Char → List Char → Bool
  | _, [] => true
  | [], _ :: _ => false
  | c :: cs, p :: ps => c == p && startsWithL cs ps

/-- `hasSubL pat l`: `pat` occurs contiguously somewhere in `l`
(Python's `pat in l`). -/
def hasSubL (pat : List Char) : List Char → Bool
  | [] => startsWithL [] pat
  | c :: cs => startsWithL (c :: cs) pat || hasSubL pat cs

/-- Python's substring test `pat in s`. -/
def containsSub (s pat : String) : Bool := hasSubL pat.data s.data

/-- The Booking Outcome taxonomy of the spec (section 3): `Success`,
`Conflict` (carrying the attempted instant and the alternative slot
suggestions), `InvalidRequest`, `ServiceUnavailable`.  Instants are minutes
on the UTC timeline, as integers. -/
inductive BookingOutcome where
  | success (bookingId : String)
  | conflict (attempted : Int) (alternatives : List Int) (reason : String)
  | invalidRequest (reason : String)
  | serviceUnavailable (reason : String)
deriving DecidableEq

/-- The remote calendar's answer to a booking write: a booking reference,
or an error message to be classified by text. -/
inductive RemoteBookingResponse where
  | ok (bookingId : String)
  | err (message : String)

/-- Modelled from the spec: the Booking Orchestrator's failure
classification (section 4.4), implemented in `src/bot/chatbot.py` /
`src/api/cal_api.py`, which are not among the sources.  The remote error
message text is inspected for substrings: host-conflict phrases
("no available users") give `Conflict`; validation phrases
("invalid event length", "Invalid time slot") give `InvalidRequest`;
HTTP-auth-class markers ("401", "403") give `ServiceUnavailable`; anything
else (generic 5xx / database failures) gives `ServiceUnavailable`. -/
def classify_booking_error (attempted : Int) (alternatives : List Int)
    (msg : String) : BookingOutcome :=
  if containsSub msg "no available users" then
    .conflict attempted alternatives msg
  else if containsSub msg "invalid event length" || containsSub msg "Invalid time slot" then
    .invalidRequest msg
  else if containsSub msg "401" || containsSub msg "403" then
    .serviceUnavailable msg
  else
    .serviceUnavailable msg

/-- Modelled from the spec: the alternative-slot suggestions attached to a
`Conflict` (section 4.4) — up to 3 slot candidates from the availability
resolution for the requested date, nearest first by absolute time
difference to the requested instant. -/
def alternativesFor (slots : List Int) (req : Int) : List Int :=
  (List.insertionSort (fun a b => (a - req).natAbs ≤ (b - req).natAbs) slots).take 3

/-- Modelled from the spec: `CalendarAgent.book_meeting`
(`src/bot/chatbot.py`, not among the sources; contract in section 4.4).
`slots` is the availability resolution for the requested instant's date.
Unless `skip` is set, the requested instant must be present in `slots`;
otherwise a `Conflict` with alternative suggestions is returned without
issuing the remote call.  Otherwise the remote call is issued exactly once
and an error reply is classified by message text.  The second component
counts the remote booking calls issued (the component never retries
internally). -/
def book_meeting (slots : List Int) (req : Int) (skip : Bool)
    (remote : RemoteBookingResponse) : BookingOutcome × Nat :=
  if skip = false ∧ req ∉ slots then
    (.conflict req (alternativesFor slots req) "Requested time not available", 0)
  else
    match remote with
    | .ok bid => (.success bid, 1)
    | .err m => (classify_booking_error req (alternativesFor slots req) m, 1)

example : alternativesFor [10, 20, 30, 40] 25 = [20, 30, 10] := by decide
example : book_meeting [10, 20, 30, 40] 25 false (.ok "b") =
    (.conflict 25 [20, 30, 10] "Requested time not available", 0) := by decide
example : classify_booking_error 0 [] "no available users found at this time" =
    .conflict 0 [] "no available users found at this time" := by decide
example : classify_booking_error 0 [] "400 Invalid time slot" =
    .invalidRequest "400 Invalid time slot" := by decide

/-! ### Lemmas about the ISO matcher -/

theorem string_eq_of_data (s t : String) (h : s.data = t.data) : s = t := by
  cases s
  cases t
  exact congrArg String.mk h

theorem dateShape_inv (l : List Char) (hl : dateShape l = true) :
    ∃ a b c d e f g h, l = [a, b, c, d, '-', e, f, '-', g, h]
      ∧ a.isDigit = true ∧ b.isDigit = true ∧ c.isDigit = true ∧ d.isDigit = true
      ∧ e.isDigit = true ∧ f.isDigit = true ∧ g.isDigit = true ∧ h.isDigit = true := by
  rcases l with _ | ⟨a, _ | ⟨b, _ | ⟨c, _ | ⟨d, _ | ⟨h1, _ | ⟨e, _ | ⟨f, _ | ⟨h2, _ |
    ⟨g, _ | ⟨h, _ | ⟨x, rest⟩⟩⟩⟩⟩⟩⟩⟩⟩⟩⟩ <;>
    simp only [dateShape, Bool.and_eq_true, beq_iff_eq, and_assoc,
      Bool.false_eq_true] at hl
  obtain ⟨ha, hb, hc, hd, rfl, he, hf, rfl, hg, hh⟩ := hl
  exact ⟨a, b, c, d, e, f, g, h, rfl, ha, hb, hc, hd, he, hf, hg, hh⟩

theorem timeShape_inv (l : List Char) (hl : timeShape l = true) :
    ∃ i j k m, l = [i, j, ':', k, m]
      ∧ i.isDigit = true ∧ j.isDigit = true ∧ k.isDigit = true ∧ m.isDigit = true := by
  rcases l with _ | ⟨i, _ | ⟨j, _ | ⟨c1, _ | ⟨k, _ | ⟨m, _ | ⟨x, rest⟩⟩⟩⟩⟩⟩ <;>
    simp only [timeShape, Bool.and_eq_true, beq_iff_eq, and_assoc,
      Bool.false_eq_true] at hl
  obtain ⟨hi, hj, rfl, hk, hm⟩ := hl
  exact ⟨i, j, k, m, rfl, hi, hj, hk, hm⟩

theorem dataTlit : ("T" : String).data = ['T'] := rfl

theorem dataTail : (":00.000Z" : String).data = isoTail := rfl

theorem matchISO_inv (cs : List Char) (d t : String)
    (h : matchISO cs = some (d, t)) :
    ∃ suf, cs = d.data ++ ('T' :: (t.data ++ (isoTail ++ suf)))
      ∧ dateShape d.data = true ∧ timeShape t.data = true := by
  unfold matchISO at h
  split at h
  · next a b c d' h1 e f h2 g hh tc i j c1 k l c2 z1 z2 p z3 z4 z5 zz rest =>
    split at h
    · next hcond =>
      simp only [Bool.and_eq_true, beq_iff_eq, and_assoc] at hcond
      obtain ⟨ha, hb, hc, hd, rfl, he, hf, rfl, hg, hhh, rfl, hi, hj, rfl, hk, hl,
        rfl, rfl, rfl, rfl, rfl, rfl, rfl, rfl⟩ := hcond
      obtain ⟨hds, hts⟩ :
          (⟨[a, b, c, d', '-', e, f, '-', g, hh]⟩ : String) = d
          ∧ (⟨[i, j, ':', k, l]⟩ : String) = t := by
        injection h with h'
        exact ⟨congrArg Prod.fst h', congrArg Prod.snd h'⟩
      subst hds
      subst hts
      refine ⟨rest, ?_, ?_, ?_⟩
      · simp [isoTail]
      · simp [dateShape, ha, hb, hc, hd, he, hf, hg, hhh]
      · simp [timeShape, hi, hj, hk, hl]
    · exact Option.noConfusion h
  · exact Option.noConfusion h

theorem matchISO_render (dl tl suf : List Char)
    (hd : dateShape dl = true) (ht : timeShape tl = true) :
    matchISO (dl ++ ('T' :: (tl ++ (isoTail ++ suf)))) = some (⟨dl⟩, ⟨tl⟩) := by
  obtain ⟨a, b, c, d, e, f, g, h, rfl, ha, hb, hc, hdd, he, hf, hg, hh⟩ :=
    dateShape_inv dl hd
  obtain ⟨i, j, k, m, rfl, hi, hj, hk, hm⟩ := timeShape_inv tl ht
  simp [matchISO, isoTail, ha, hb, hc, hdd, he, hf, hg, hh, hi, hj, hk, hm]

theorem scanISO_of_matchISO (cs : List Char) (r : String × String)
    (h : matchISO cs = some r) : scanISO cs = some r := by
  cases cs with
  | nil => simp [matchISO] at h
  | cons c cs' => rw [scanISO, h]

theorem scanISO_inv (cs : List Char) : ∀ (d t : String), scanISO cs = some (d, t) →
    ∃ pre suf, cs = pre ++ (d.data ++ ('T' :: (t.data ++ (isoTail ++ suf))))
      ∧ dateShape d.data = true ∧ timeShape t.data = true := by
  induction cs with
  | nil => intro d t h; simp [scanISO] at h
  | cons c cs' ih =>
    intro d t h
    cases hm : matchISO (c :: cs') with
    | some r =>
      simp only [scanISO, hm] at h
      obtain rfl : r = (d, t) := by injection h
      obtain ⟨suf, hcs, hd, ht⟩ := matchISO_inv (c :: cs') d t hm
      exact ⟨[], suf, by simpa using hcs, hd, ht⟩
    | none =>
      simp only [scanISO, hm] at h
      obtain ⟨pre, suf, hcs, hd, ht⟩ := ih d t h
      exact ⟨c :: pre, suf, by simp [hcs], hd, ht⟩

theorem scanISO_complete (pre : List Char) (dl tl suf : List Char)
    (hd : dateShape dl = true) (ht : timeShape tl = true) :
    (scanISO (pre ++ (dl ++ ('T' :: (tl ++ (isoTail ++ suf)))))).isSome = true := by
  induction pre with
  | nil =>
    rw [List.nil_append,
      scanISO_of_matchISO _ _ (matchISO_render dl tl suf hd ht)]
    rfl
  | cons p pre' ih =>
    rw [List.cons_append]
    cases hm : matchISO (p :: (pre' ++ (dl ++ ('T' :: (tl ++ (isoTail ++ suf)))))) with
    | some r => simp [scanISO, hm]
    | none =>
      simp only [scanISO, hm]
      exact ih

/-! ### Store lemmas -/

theorem getStore_setStore_self (s : Store) (cid : String) (conv : Conversation) :
    getStore (setStore s cid conv) cid = some conv := by
  induction s with
  | nil => simp [setStore, getStore]
  | cons hd tl ih =>
    obtain ⟨k, v⟩ := hd
    by_cases hk : k = cid
    · simp [setStore, getStore, hk]
    · simp [setStore, getStore, hk, ih]

theorem getStore_setStore_ne (s : Store) (cid k : String) (conv : Conversation)
    (hk : k ≠ cid) : getStore (setStore s cid conv) k = getStore s k := by
  induction s with
  | nil =>
    simp only [setStore, getStore]
    rw [if_neg (fun h => hk h.symm)]
  | cons hd tl ih =>
    obtain ⟨k', v⟩ := hd
    by_cases hk' : k' = cid
    · subst hk'
      simp [setStore, getStore, Ne.symm hk, hk]
    · by_cases hkk : k' = k <;> simp [setStore, getStore, hk', hkk, hk, ih]

/-- On a falsy (`None`/empty) or unknown conversation id, the `/chat`
handler creates a fresh conversation holding exactly the two new messages
and stores it under the fresh id. -/
theorem chatHandler_new (store : Store) (reqId : Option String)
    (userEmail msgText : String) (ar : AgentResult) (fresh m1 m2 now : String)
    (hnew : isFalsyId reqId = true ∨ ∃ c, reqId = some c ∧ getStore store c = none) :
    chatHandler store reqId userEmail msgText ar fresh m1 m2 now =
      (⟨ar.response, fresh, ar.actionTaken, ar.details⟩,
       setStore store fresh
         ⟨fresh, userEmail,
          [⟨m1, msgText, "user", now⟩, ⟨m2, ar.response, "assistant", now⟩],
          now, now⟩) := by
  unfold chatHandler
  rcases hnew with hf | ⟨c, rfl, hc⟩
  · rw [if_pos hf]
    rfl
  · by_cases hce : c = ""
    · subst hce
      rw [if_pos (by simp [isFalsyId])]
      rfl
    · rw [if_neg (by simp [isFalsyId, hce])]
      simp [hc]

/-- On a non-empty conversation id bound in the store, the `/chat` handler
reuses the conversation, refreshes `updated_at`, appends the two new
messages, and writes it back under the same id. -/
theorem chatHandler_existing (store : Store) (c : String) (hc : c ≠ "")
    (conv : Conversation) (hconv : getStore store c = some conv)
    (userEmail msgText : String) (ar : AgentResult) (fresh m1 m2 now : String) :
    chatHandler store (some c) userEmail msgText ar fresh m1 m2 now =
      (⟨ar.response, c, ar.actionTaken, ar.details⟩,
       setStore store c
         { conv with
           updatedAt := now
           messages := conv.messages ++
             [⟨m1, msgText, "user", now⟩, ⟨m2, ar.response, "assistant", now⟩] }) := by
  unfold chatHandler
  rw [if_neg (by simp [isFalsyId, hc])]
  simp [hconv]

/-! ### Claim theorems -/

/-- C1: for every error result returned by the remote booking call, the
failure is classified by substring inspection of the message text:
host-conflict phrases ("no available users") give `Conflict`; validation
phrases ("invalid event length", "Invalid time slot") give
`InvalidRequest`; HTTP-auth-class markers give `ServiceUnavailable`;
everything else (generic 5xx/database failures) gives `ServiceUnavailable`;
and the component issues the remote call at most once — it never retries
internally. -/
theorem booking_error_classification (req : Int) (alts : List Int) (msg : String) :
    (containsSub msg "no available users" = true →
      classify_booking_error req alts msg = .conflict req alts msg)
    ∧ (containsSub msg "no available users" = false →
       (containsSub msg "invalid event length" = true ∨
        containsSub msg "Invalid time slot" = true) →
       classify_booking_error req alts msg = .invalidRequest msg)
    ∧ (containsSub msg "no available users" = false →
       containsSub msg "invalid event length" = false →
       containsSub msg "Invalid time slot" = false →
       (containsSub msg "401" = true ∨ containsSub msg "403" = true) →
       classify_booking_error req alts msg = .serviceUnavailable msg)
    ∧ (containsSub msg "no available users" = false →
       containsSub msg "invalid event length" = false →
       containsSub msg "Invalid time slot" = false →
       classify_booking_error req alts msg = .serviceUnavailable msg)
    ∧ (∀ (slots : List Int) (r : Int) (skip : Bool) (remote : RemoteBookingResponse),
        (book_meeting slots r skip remote).2 ≤ 1) := by
  refine ⟨?_, ?_, ?_, ?_, ?_⟩
  · intro h1
    simp [classify_booking_error, h1]
  · intro h1 h2
    rcases h2 with h2 | h2 <;> simp [classify_booking_error, h1, h2]
  · intro h1 h2 h3 h4
    rcases h4 with h4 | h4 <;> simp [classify_booking_error, h1, h2, h3, h4]
  · intro h1 h2 h3
    simp only [classify_booking_error, h1, h2, h3, Bool.or_self, if_false,
      Bool.false_eq_true]
    split <;> rfl
  · intro slots r skip remote
    unfold book_meeting
    split
    · exact Nat.zero_le 1
    · split <;> exact Nat.le_refl 1

/-- Witness for C1 at concrete error messages of each class. -/
theorem booking_error_classification_witness :
    classify_booking_error 0 [] "no available users found" =
      .conflict 0 [] "no available users found"
    ∧ classify_booking_error 0 [] "Invalid time slot" =
      .invalidRequest "Invalid time slot"
    ∧ classify_booking_error 0 [] "HTTP 401 from calendar" =
      .serviceUnavailable "HTTP 401 from calendar"
    ∧ classify_booking_error 0 [] "500 Internal database error" =
      .serviceUnavailable "500 Internal database error"
    ∧ (book_meeting [] 0 true (.err "x")).2 ≤ 1 :=
  ⟨(booking_error_classification 0 [] "no available users found").1 (by decide),
   (booking_error_classification 0 [] "Invalid time slot").2.1 (by decide)
     (Or.inr (by decide)),
   (booking_error_classification 0 [] "HTTP 401 from calendar").2.2.1 (by decide)
     (by decide) (by decide) (Or.inl (by decide)),
   (booking_error_classification 0 [] "500 Internal database error").2.2.2.1
     (by decide) (by decide) (by decide),
   (booking_error_classification 0 [] "x").2.2.2.2 [] 0 true (.err "x")⟩

/-- C2 (counterexample to "at least one alternative"): when the
availability resolution for the requested date is empty, the `Conflict`
returned for an absent instant carries zero alternative candidates. -/
theorem booking_conflict_empty_alternatives :
    book_meeting [] 840 false (.ok "b") =
      (.conflict 840 [] "Requested time not available", 0)
    ∧ (alternativesFor [] 840).length = 0 := by decide

/-- C2 (amended): unless `skip_availability_check` is set, a requested
instant absent from the availability resolution yields `Conflict` without
any remote booking call, carrying at most three alternative candidates
taken from that resolution — at least one whenever the resolution is
nonempty — ordered by absolute time difference to the requested instant. -/
theorem booking_conflict_alternatives (slots : List Int) (req : Int)
    (remote : RemoteBookingResponse) (habs : req ∉ slots) :
    book_meeting slots req false remote =
      (.conflict req (alternativesFor slots req) "Requested time not available", 0)
    ∧ (alternativesFor slots req).length ≤ 3
    ∧ (slots ≠ [] → 1 ≤ (alternativesFor slots req).length)
    ∧ (∀ x ∈ alternativesFor slots req, x ∈ slots)
    ∧ (alternativesFor slots req).Pairwise
        (fun a b => (a - req).natAbs ≤ (b - req).natAbs) := by
  refine ⟨?_, ?_, ?_, ?_, ?_⟩
  · unfold book_meeting
    rw [if_pos ⟨rfl, habs⟩]
  · unfold alternativesFor
    simp [List.length_take]
  · intro hne
    unfold alternativesFor
    have hlen : (List.insertionSort
        (fun a b => (a - req).natAbs ≤ (b - req).natAbs) slots).length = slots.length :=
      List.length_insertionSort _ _
    have hpos : 0 < slots.length := List.length_pos.mpr hne
    simp [List.length_take, hlen]
    omega
  · intro x hx
    unfold alternativesFor at hx
    have hx' := List.mem_of_mem_take hx
    exact (List.mem_insertionSort _).mp hx'
  · unfold alternativesFor
    haveI : IsTotal Int (fun a b => (a - req).natAbs ≤ (b - req).natAbs) :=
      ⟨fun a b => Nat.le_total _ _⟩
    haveI : IsTrans Int (fun a b => (a - req).natAbs ≤ (b - req).natAbs) :=
      ⟨fun _ _ _ hab hbc => Nat.le_trans hab hbc⟩
    exact List.Pairwise.sublist (List.take_sublist 3 _)
      (List.sorted_insertionSort (fun a b => (a - req).natAbs ≤ (b - req).natAbs) slots)

/-- Witness for C2 (amended) on a concrete four-slot resolution. -/
theorem booking_conflict_alternatives_witness :
    book_meeting [10, 20, 30, 40] 25 false (.ok "b") =
      (.conflict 25 (alternativesFor [10, 20, 30, 40] 25) "Requested time not available", 0)
    ∧ (alternativesFor [10, 20, 30, 40] 25).length ≤ 3
    ∧ 1 ≤ (alternativesFor [10, 20, 30, 40] 25).length :=
  let h := booking_conflict_alternatives [10, 20, 30, 40] 25 (.ok "b") (by decide)
  ⟨h.1, h.2.1, h.2.2.1 (by decide)⟩

/-- C3: a `/chat` request whose `conversation_id` is absent or not a stored
key gets a fresh conversation (created in the store, its id returned in the
response); a request whose `conversation_id` is a stored key creates no new
conversation (the key set is unchanged) and the response carries the same
id.  The hypotheses are the reachable-store invariants: stored keys are
`uuid4` strings, so the empty string is never a key and the freshly drawn
id is not yet a key. -/
theorem chat_session_identity (store : Store) (reqId : Option String)
    (userEmail msgText : String) (ar : AgentResult) (fresh m1 m2 now : String)
    (hempty : getStore store "" = none)
    (hfresh : getStore store fresh = none) :
    (∀ c conv, reqId = some c → getStore store c = some conv →
      (chatHandler store reqId userEmail msgText ar fresh m1 m2 now).1.conversationId = c
      ∧ ∀ k,
        (getStore (chatHandler store reqId userEmail msgText ar fresh m1 m2 now).2 k).isSome
          = (getStore store k).isSome)
    ∧ ((reqId = none ∨ reqId = some "" ∨ (∀ c, reqId = some c → getStore store c = none)) →
      (chatHandler store reqId userEmail msgText ar fresh m1 m2 now).1.conversationId = fresh
      ∧ (getStore (chatHandler store reqId userEmail msgText ar fresh m1 m2 now).2 fresh).isSome
          = true
      ∧ (getStore store fresh).isSome = false
      ∧ ∀ k, k ≠ fresh →
          getStore (chatHandler store reqId userEmail msgText ar fresh m1 m2 now).2 k
            = getStore store k) := by
  constructor
  · intro c conv hr hconv
    subst hr
    have hc : c ≠ "" := by
      intro h
      subst h
      rw [hempty] at hconv
      exact Option.noConfusion hconv
    rw [chatHandler_existing store c hc conv hconv userEmail msgText ar fresh m1 m2 now]
    refine ⟨rfl, ?_⟩
    intro k
    by_cases hk : k = c
    · subst hk
      rw [getStore_setStore_self, hconv]
      rfl
    · rw [getStore_setStore_ne _ _ _ _ hk]
  · intro hg
    have hnew : isFalsyId reqId = true ∨ ∃ c, reqId = some c ∧ getStore store c = none := by
      rcases hg with rfl | rfl | hall
      · left; rfl
      · left; rfl
      · cases reqId with
        | none => left; rfl
        | some c => right; exact ⟨c, rfl, hall c rfl⟩
    rw [chatHandler_new store reqId userEmail msgText ar fresh m1 m2 now hnew]
    refine ⟨rfl, ?_, ?_, ?_⟩
    · rw [getStore_setStore_self]
      rfl
    · rw [hfresh]
      rfl
    · intro k hk
      exact getStore_setStore_ne _ _ _ _ hk

/-- Witness for C3: a `conversation_id`-free request on the empty store
creates and returns the fresh id. -/
theorem chat_session_identity_witness :
    (chatHandler [] none "u@example.com" "hi" ⟨"ok", none, none⟩
        "conv-1" "m1" "m2" "t0").1.conversationId = "conv-1"
    ∧ (getStore (chatHandler [] none "u@example.com" "hi" ⟨"ok", none, none⟩
        "conv-1" "m1" "m2" "t0").2 "conv-1").isSome = true :=
  let h := (chat_session_identity [] none "u@example.com" "hi" ⟨"ok", none, none⟩
    "conv-1" "m1" "m2" "t0" rfl rfl).2 (Or.inl rfl)
  ⟨h.1, h.2.1⟩

/-- C4: a successful `/chat` request extends the conversation's transcript
append-only — exactly the incoming user message followed by the assistant
response are appended, in that order — and every other stored conversation
is left bound to exactly the conversation it held before (so all previous
messages keep their content and relative order). -/
theorem chat_transcript_append (store : Store) (reqId : Option String)
    (userEmail msgText : String) (ar : AgentResult) (fresh m1 m2 now : String)
    (hempty : getStore store "" = none)
    (hfresh : getStore store fresh = none) :
    (∀ c conv, reqId = some c → getStore store c = some conv →
      ∃ conv',
        getStore (chatHandler store reqId userEmail msgText ar fresh m1 m2 now).2 c
          = some conv'
        ∧ conv'.messages = conv.messages ++
            [⟨m1, msgText, "user", now⟩, ⟨m2, ar.response, "assistant", now⟩])
    ∧ (∀ k,
        k ≠ (chatHandler store reqId userEmail msgText ar fresh m1 m2 now).1.conversationId →
        getStore (chatHandler store reqId userEmail msgText ar fresh m1 m2 now).2 k
          = getStore store k)
    ∧ ((reqId = none ∨ reqId = some "" ∨ (∀ c, reqId = some c → getStore store c = none)) →
      getStore store fresh = none
      ∧ ∃ conv',
        getStore (chatHandler store reqId userEmail msgText ar fresh m1 m2 now).2 fresh
          = some conv'
        ∧ conv'.messages =
            [⟨m1, msgText, "user", now⟩, ⟨m2, ar.response, "assistant", now⟩]) := by
  by_cases hb : isFalsyId reqId = true ∨ ∃ c, reqId = some c ∧ getStore store c = none
  · rw [chatHandler_new store reqId userEmail msgText ar fresh m1 m2 now hb]
    refine ⟨?_, ?_, ?_⟩
    · intro c conv hr hconv
      subst hr
      exfalso
      rcases hb with hf | ⟨c', hc', hnone⟩
      · have hce : c = "" := by simpa [isFalsyId] using hf
        subst hce
        rw [hempty] at hconv
        exact Option.noConfusion hconv
      · obtain rfl : c = c' := by injection hc'
        rw [hnone] at hconv
        exact Option.noConfusion hconv
    · intro k hk
      exact getStore_setStore_ne _ _ _ _ hk
    · intro _
      exact ⟨hfresh, _, getStore_setStore_self _ _ _, rfl⟩
  · push_neg at hb
    obtain ⟨hnf, hns⟩ := hb
    cases reqId with
    | none => exact absurd rfl hnf
    | some c =>
      have hc : c ≠ "" := by
        intro h
        subst h
        exact hnf rfl
      obtain ⟨conv, hconv⟩ : ∃ conv, getStore store c = some conv := by
        cases hcs : getStore store c with
        | none => exact absurd hcs (hns c rfl)
        | some conv => exact ⟨conv, rfl⟩
      rw [chatHandler_existing store c hc conv hconv userEmail msgText ar fresh m1 m2 now]
      refine ⟨?_, ?_, ?_⟩
      · intro c' conv' hr hconv'
        obtain rfl : c' = c := by injection hr with h; exact h.symm
        obtain rfl : conv' = conv := by
          rw [hconv] at hconv'
          injection hconv' with h
          exact h.symm
        exact ⟨_, getStore_setStore_self _ _ _, rfl⟩
      · intro k hk
        exact getStore_setStore_ne _ _ _ _ hk
      · intro hg
        exfalso
        rcases hg with hg | hg | hall
        · exact Option.noConfusion hg
        · exact hc (by injection hg)
        · rw [hall c rfl] at hconv
          exact Option.noConfusion hconv

/-- Witness for C4: on a one-conversation store, a request addressed to
that conversation appends exactly the user and assistant messages. -/
theorem chat_transcript_append_witness :
    (getStore (chatHandler
        [("c1", ⟨"c1", "u@example.com", [⟨"m0", "hello", "user", "t0"⟩], "t0", "t0"⟩)]
        (some "c1") "u@example.com" "again" ⟨"sure", none, none⟩
        "conv-9" "m1" "m2" "t1").2 "c1").map Conversation.messages
      = some ([⟨"m0", "hello", "user", "t0"⟩] ++
          [⟨"m1", "again", "user", "t1"⟩, ⟨"m2", "sure", "assistant", "t1"⟩]) := by
  obtain ⟨conv', h1, h2⟩ :=
    (chat_transcript_append
        [("c1", ⟨"c1", "u@example.com", [⟨"m0", "hello", "user", "t0"⟩], "t0", "t0"⟩)]
        (some "c1") "u@example.com" "again" ⟨"sure", none, none⟩
        "conv-9" "m1" "m2" "t1" (by decide) (by decide)).1
      "c1" ⟨"c1", "u@example.com", [⟨"m0", "hello", "user", "t0"⟩], "t0", "t0"⟩ rfl
      (by decide)
  rw [h1]
  simp [h2]

/-- C5: the start instant sent to the remote calendar write interface by
`book_event` and `reschedule_event` is exactly `date ++ "T" ++ time ++
":00.000Z"` — wall-clock time sent as UTC with zero seconds and
milliseconds, with no timezone adjustment applied. -/
theorem calendar_write_start_format (e : BookEventRequest) (d t : String) :
    (book_event_call e).startTime = e.date ++ "T" ++ e.time ++ ":00.000Z"
    ∧ reschedule_event_start d t = d ++ "T" ++ t ++ ":00.000Z" :=
  ⟨rfl, rfl⟩

/-- C6: extracting an ISO datetime from the canonical rendering
`D ++ "T" ++ T ++ ":00.000Z"` of a well-formed date `D` and time `T`
returns exactly `(D, T)`; hence re-rendering and extracting again is a
no-op on an already-canonical instant. -/
theorem iso_roundtrip (D T : String) (hD : isDate D = true) (hT : isTime T = true) :
    extract_iso_datetime (renderISO D T) = some (D, T)
    ∧ ∀ p, extract_iso_datetime (renderISO D T) = some p →
        extract_iso_datetime (renderISO p.1 p.2) = some p := by
  have hdata : (renderISO D T).data
      = D.data ++ ('T' :: (T.data ++ (isoTail ++ []))) := by
    simp [renderISO, dataTlit, dataTail, isoTail]
  have hmain : extract_iso_datetime (renderISO D T) = some (D, T) := by
    unfold extract_iso_datetime
    rw [hdata, scanISO_of_matchISO _ _
      (matchISO_render D.data T.data [] (by simpa [isDate] using hD)
        (by simpa [isTime] using hT))]
  refine ⟨hmain, fun p hp => ?_⟩
  rw [hmain] at hp
  obtain rfl : (D, T) = p := by injection hp
  exact hmain

/-- Witness for C6 at the concrete instant 2025-05-14 20:30. -/
theorem iso_roundtrip_witness :
    extract_iso_datetime (renderISO "2025-05-14" "20:30") = some ("2025-05-14", "20:30") :=
  (iso_roundtrip "2025-05-14" "20:30" (by decide) (by decide)).1

/-- C7: ISO datetime extraction succeeds exactly on messages containing a
substring of the form `YYYY-MM-DDTHH:MM:00.000Z`; a message without one —
for instance a bare date — yields the empty result (no exception). -/
theorem iso_extraction_characterization :
    extract_iso_datetime "Partial date: 2025-05-14" = none
    ∧ ∀ msg : String,
        (extract_iso_datetime msg).isSome = true ↔
        ∃ pre d t suf : String,
          msg = pre ++ d ++ "T" ++ t ++ ":00.000Z" ++ suf
          ∧ isDate d = true ∧ isTime t = true := by
  refine ⟨by decide, fun msg => ⟨?_, ?_⟩⟩
  · intro h
    obtain ⟨⟨d, t⟩, hdt⟩ := Option.isSome_iff_exists.mp h
    obtain ⟨pre, suf, hcs, hd, ht⟩ := scanISO_inv msg.data d t hdt
    refine ⟨⟨pre⟩, d, t, ⟨suf⟩, ?_, by simpa [isDate] using hd, by simpa [isTime] using ht⟩
    apply string_eq_of_data
    simp only [String.data_append, dataTlit, dataTail]
    rw [hcs]
    simp [isoTail]
  · rintro ⟨pre, d, t, suf, rfl, hd, ht⟩
    unfold extract_iso_datetime
    have hdata : (pre ++ d ++ "T" ++ t ++ ":00.000Z" ++ suf).data
        = pre.data ++ (d.data ++ ('T' :: (t.data ++ (isoTail ++ suf.data)))) := by
      simp [dataTlit, dataTail, isoTail]
    rw [hdata]
    exact scanISO_complete pre.data d.data t.data suf.data
      (by simpa [isDate] using hd) (by simpa [isTime] using ht)

/-- C8: both outbound calls of the client service layer carry a 30-second
timeout, and every request failure (timeout, HTTP error status, or any
other exception) is returned as an error dict rather than raised. -/
theorem client_layer_bounded_and_total (baseUrl convId m : String) :
    (send_message_call baseUrl).timeoutSeconds = 30
    ∧ (get_messages_call baseUrl convId).timeoutSeconds = 30
    ∧ send_message (.requestException m) = .errorDict m
    ∧ send_message (.otherException m) = .errorDict m
    ∧ client_get_conversation_messages (.requestException m) = .errorDict m
    ∧ client_get_conversation_messages (.otherException m) = .errorDict m :=
  ⟨rfl, rfl, rfl, rfl, rfl, rfl⟩

/-- C9: for a conversation id that is not a stored key, the three
conversation endpoints all fail with 404 "Conversation not found" and
return the store unchanged. -/
theorem conversation_endpoints_404 (store : Store) (cid : String)
    (h : getStore store cid = none) :
    get_conversation store cid = (.error ⟨404, "Conversation not found"⟩, store)
    ∧ delete_conversation store cid = (.error ⟨404, "Conversation not found"⟩, store)
    ∧ get_conversation_messages store cid =
        (.error ⟨404, "Conversation not found"⟩, store) := by
  unfold get_conversation delete_conversation get_conversation_messages
  rw [h]
  exact ⟨rfl, rfl, rfl⟩

/-- Witness for C9 on the empty store. -/
theorem conversation_endpoints_404_witness :
    get_conversation [] "missing-id" = (.error ⟨404, "Conversation not found"⟩, [])
    ∧ delete_conversation [] "missing-id" = (.error ⟨404, "Conversation not found"⟩, [])
    ∧ get_conversation_messages [] "missing-id" =
        (.error ⟨404, "Conversation not found"⟩, []) :=
  conversation_endpoints_404 [] "missing-id" rfl

/-- C10: `verify_api_key` rejects with 401 "Invalid API key" exactly when
the provided header value differs from the configured key (a missing
header, modelled as `none`, always differs); on a match the key is
returned unchanged. -/
theorem api_key_check (apiKey : Option String) (validKey : String) :
    (verify_api_key apiKey validKey = .error ⟨401, "Invalid API key"⟩ ↔
      apiKey ≠ some validKey)
    ∧ verify_api_key (some validKey) validKey = .ok validKey := by
  constructor
  · cases apiKey with
    | none => simp [verify_api_key]
    | some k =>
      by_cases hk : k = validKey <;> simp [verify_api_key, hk]
  · simp [verify_api_key]

end CalChatBot
